import Mathlib

/-!
Verification of the MP4AudioToText transcription pipeline (src/app.py)
against its natural-language specification.

The embedding models the core pipeline of `app.py`:
  * `extract_audio_from_mp4` (lines 24-55): audio extraction with
    temporary-file bookkeeping, modelled as a function from the outcome of
    the moviepy extraction step to the returned path together with which
    temporary files remain on disk.
  * `transcribe_audio` (lines 57-176): invocation of the external Riva
    client.  The subprocess outcome (timeout / exit code / stdout) is an
    explicit parameter, and `json.loads` is modelled as an abstract
    `parse : String -> Option Json` parameter, since both are external to
    the program.  All string scanning (first `\x7b` / last `\x7d`, the
    `Final transcript:` marker, `str.strip`) is translated directly.
  * `save_to_csv` (lines 178-221): the exporter.  The written file is
    modelled as a `SaveResult` record carrying the path, the row table,
    the header produced by `pandas.DataFrame(...).to_csv`, the encoding
    argument, and the fact that the output directory is created.
  * `main` (lines 223-331): only the pipeline wiring that the claims need:
    transcribe, then unconditional unlink of the waveform (lines 272-276),
    then export only on a truthy transcription result.

Python floats are modelled as `ℚ`; `round` (banker rounding) and `int`
(truncation toward zero) are translated explicitly.  `str.strip` is
modelled as trimming `Char.isWhitespace` characters on both ends, which
agrees with Python for the ASCII whitespace appearing in this program.
-/

/-- Characters considered whitespace by the model of Python `str.strip`. -/
def strTrim (s : String) : String :=
  (((s.toList.dropWhile Char.isWhitespace).reverse.dropWhile
      Char.isWhitespace).reverse).asString

/-- JSON values, the result type of the modelled `json.loads`. -/
inductive Json where
  | null : Json
  | bool (b : Bool) : Json
  | num (q : ℚ) : Json
  | str (s : String) : Json
  | arr (items : List Json) : Json
  | obj (fields : List (String × Json)) : Json

/-- Dictionary lookup, modelling Python `dict[key]` / `dict.get(key)`.
JSON objects produced by `json.loads` have unique keys, so first-match
lookup is faithful. -/
def lookupKV : List (String × Json) → String → Option Json
  | [], _ => none
  | (k, v) :: rest, key => if k = key then some v else lookupKV rest key

/-- Error outcomes of `transcribe_audio` (src/app.py lines 57-176).  The
Python function returns `None` in every case, after showing a distinct
`st.error` message; the constructors record which exit was taken:
`noClient` (line 62), `timeout` (line 171), `processFailed` (line 89,
carrying stderr), `noOutput` (line 96), `noJsonRegion` (line 164),
`jsonDecode` (line 167), `pythonError` (line 174, an uncaught exception
from an ill-typed payload reaching the generic handler), and
`emptyResult` (the bare `None` of line 162). -/
inductive TErr where
  | noClient : TErr
  | timeout : TErr
  | processFailed (stderr : String) : TErr
  | noOutput : TErr
  | noJsonRegion : TErr
  | jsonDecode : TErr
  | pythonError : TErr
  | emptyResult : TErr
deriving DecidableEq

/-- One segment dictionary as built by `transcribe_audio` and consumed by
`save_to_csv`.  `none` models an absent key; for `speaker` it also models
the key being present with Python `None` (both behave identically under
`segment.get("speaker", None)`, line 195). -/
structure SegDict where
  start : Option ℚ
  text : Option String
  speaker : Option ℚ
deriving DecidableEq

/-- The `result_data` dictionary of src/app.py lines 115-118. -/
structure ResultData where
  text : String
  segments : List SegDict
deriving DecidableEq

/-- src/app.py line 124: `alternative.get("transcript", "")`.  A missing
key defaults to `""`; a non-string value makes the subsequent `.strip()`
raise, reaching the generic handler (line 174), as does a non-dict
alternative. -/
def getTranscript (alt : Json) : Except TErr String :=
  match alt with
  | Json.obj akv =>
    match lookupKV akv "transcript" with
    | none => Except.ok ""
    | some (Json.str s) => Except.ok s
    | some _ => Except.error TErr.pythonError
  | _ => Except.error TErr.pythonError

/-- src/app.py line 128: `result_item.get("audioProcessed", 0.0)`.
A present non-numeric value is modelled as the Python error it would
eventually raise when formatted or rounded. -/
def getAudioProcessed (kvs : List (String × Json)) : Except TErr ℚ :=
  match lookupKV kvs "audioProcessed" with
  | none => Except.ok 0
  | some (Json.num q) => Except.ok q
  | some _ => Except.error TErr.pythonError

/-- src/app.py lines 131-135: the speaker tag of the first word, when
word-level data exists.  `speakerTag` present with JSON `null` behaves
like an absent key (Python `None`).  A present value of any other
non-numeric shape is modelled as the error `int(...)` would raise. -/
def getSpeaker (alt : Json) : Except TErr (Option ℚ) :=
  match alt with
  | Json.obj akv =>
    match lookupKV akv "words" with
    | none => Except.ok none
    | some (Json.arr []) => Except.ok none
    | some (Json.arr (w :: _)) =>
      match w with
      | Json.obj wkv =>
        match lookupKV wkv "speakerTag" with
        | none => Except.ok none
        | some Json.null => Except.ok none
        | some (Json.num q) => Except.ok (some q)
        | some _ => Except.error TErr.pythonError
      | _ => Except.error TErr.pythonError
    | some _ => Except.error TErr.pythonError
  | _ => Except.error TErr.pythonError

/-- src/app.py lines 122-146, the body of the loop over `data["results"]`
for one `result_item`: `Except.ok none` when the item contributes no
segment (no alternatives, or empty trimmed transcript), and
`Except.ok (some (transcript, audioProcessed, speakerTag))` when it
contributes one.  Non-dict items are modelled as the membership-test /
subscript error Python raises on them. -/
def procItem (item : Json) : Except TErr (Option (String × ℚ × Option ℚ)) :=
  match item with
  | Json.obj kvs =>
    match lookupKV kvs "alternatives" with
    | some (Json.arr (alt :: _)) =>
      match getTranscript alt with
      | Except.error e => Except.error e
      | Except.ok tr0 =>
        if strTrim tr0 = "" then Except.ok none
        else
          match getAudioProcessed kvs with
          | Except.error e => Except.error e
          | Except.ok ap =>
            match getSpeaker alt with
            | Except.error e => Except.error e
            | Except.ok sp => Except.ok (some (strTrim tr0, ap, sp))
    | some (Json.arr []) => Except.ok none
    | some _ => Except.error TErr.pythonError
    | none => Except.ok none
  | _ => Except.error TErr.pythonError

/-- src/app.py lines 120-146: the loop over `data["results"]`,
accumulating the space-joined text (each contributing transcript followed
by `" "`, line 141) and the segment list in result order. -/
def procResults : List Json → Except TErr (String × List SegDict)
  | [] => Except.ok ("", [])
  | item :: rest =>
    match procItem item with
    | Except.error e => Except.error e
    | Except.ok none => procResults rest
    | Except.ok (some (tr, ap, sp)) =>
      match procResults rest with
      | Except.error e => Except.error e
      | Except.ok ts =>
        Except.ok (tr ++ " " ++ ts.1, (⟨some ap, some tr, sp⟩ : SegDict) :: ts.2)

/-- The literal marker of src/app.py line 153. -/
def markerChars : List Char := "Final transcript:".toList

/-- The suffix after the first occurrence of `pat`, or `none` when `pat`
does not occur: Python `pat in s` followed by `s.split(pat, 1)[1]`. -/
def splitAfterFirst (pat : List Char) : List Char → Option (List Char)
  | [] => none
  | c :: rest =>
    if pat.isPrefixOf (c :: rest) then some (List.drop pat.length (c :: rest))
    else splitAfterFirst pat rest

/-- src/app.py lines 153-155: the stripped text after the first
`Final transcript:` marker in the raw output, if the marker occurs. -/
def markerTail (output : String) : Option String :=
  (splitAfterFirst markerChars output.toList).map (fun l => strTrim l.asString)

/-- src/app.py lines 148-162: strip the accumulated text, apply the
final-transcript fallback (lines 150-161) when the segment list is empty
and the text is non-empty, and return the result dictionary only when the
text is non-empty (`return result_data if result_data["text"] else None`,
line 162). -/
def finishResult (text : String) (segs : List SegDict) (output : String) :
    Except TErr ResultData :=
  if segs = [] ∧ text ≠ "" then
    match markerTail output with
    | some ft =>
      if ft = "" then Except.error TErr.emptyResult
      else Except.ok ⟨ft, [(⟨some 0, some ft, none⟩ : SegDict)]⟩
    | none =>
      if text = "" then Except.error TErr.emptyResult
      else Except.ok ⟨text, segs⟩
  else
    if text = "" then Except.error TErr.emptyResult
    else Except.ok ⟨text, segs⟩

/-- src/app.py line 120: `"results" in data` followed by `data["results"]`,
modelled as dictionary-key lookup (the payloads reaching this line are
parsed JSON objects). -/
def resultsField (data : Json) : Option Json :=
  match data with
  | Json.obj kvs => lookupKV kvs "results"
  | _ => none

/-- src/app.py lines 110-162: normalization of one parsed payload `data`
together with the raw stdout text `output` (used only by the marker
fallback).  Iterating `data["results"]` when it is not a list is modelled
as the Python iteration error. -/
def processJson (data : Json) (output : String) : Except TErr ResultData :=
  match resultsField data with
  | some (Json.arr items) =>
    match procResults items with
    | Except.error e => Except.error e
    | Except.ok ts => finishResult (strTrim ts.1) ts.2 output
  | some _ => Except.error TErr.pythonError
  | none => finishResult "" [] output

/-- The characters `\x7b` and `\x7d` searched for at src/app.py
lines 103-104. -/
def braceOpen : Char := Char.ofNat 123

/-- Closing counterpart of `braceOpen`. -/
def braceClose : Char := Char.ofNat 125

/-- src/app.py lines 102-107: `output.find("\x7b")`,
`output.rfind("\x7d") + 1`, and the slice `output[json_start:json_end]`
guarded by `json_start >= 0 and json_end > json_start`. -/
def jsonRegion (s : String) : Option String :=
  match s.toList.findIdx? (fun c => c == braceOpen),
        s.toList.reverse.findIdx? (fun c => c == braceClose) with
  | some i, some jr =>
    let j := s.toList.length - 1 - jr
    if i ≤ j then some ((List.take (j + 1 - i) (List.drop i s.toList)).asString)
    else none
  | _, _ => none

/-- src/app.py lines 94-169: strip the captured stdout, fail on empty
output (line 96), locate the JSON region (lines 102-107), parse it with
the external `json.loads` (modelled by the `parse` parameter; a `none`
result is the `json.JSONDecodeError` of line 167), and normalize. -/
def transcribeStdout (parse : String → Option Json) (stdout : String) :
    Except TErr ResultData :=
  if strTrim stdout = "" then Except.error TErr.noOutput
  else
    match jsonRegion (strTrim stdout) with
    | none => Except.error TErr.noJsonRegion
    | some js =>
      match parse js with
      | none => Except.error TErr.jsonDecode
      | some data => processJson data (strTrim stdout)

/-- Outcome of the `subprocess.run` call of src/app.py lines 82-87: a
wall-clock timeout (`subprocess.TimeoutExpired`, 300 s) or a completed
process with exit code, stdout and stderr. -/
inductive ProcOutcome where
  | timeout : ProcOutcome
  | completed (exitCode : ℤ) (stdout : String) (stderr : String) : ProcOutcome

/-- src/app.py lines 57-176: `transcribe_audio`.  `clientExists` models
the `PYTHON_CLIENT_PATH.exists()` check (line 61); `proc` is the outcome
of the external process; non-zero exit codes fail at line 89. -/
def transcribe_audio (parse : String → Option Json) (clientExists : Bool)
    (proc : ProcOutcome) : Except TErr ResultData :=
  if clientExists then
    match proc with
    | ProcOutcome.timeout => Except.error TErr.timeout
    | ProcOutcome.completed code out err =>
      if code = 0 then transcribeStdout parse out
      else Except.error (TErr.processFailed err)
  else Except.error TErr.noClient

/-- `math.floor` on rationals, used to model the Python `round` and `int`. -/
def ratFloor (q : ℚ) : ℤ := q.num.fdiv (q.den : ℤ)

/-- Python `round(x)` with no digits argument: round half to even.  The
fractional part `r = q - floor q` is compared with `1/2` through its
numerator: `r < 1/2` iff `2 * (num - f * den) < den`. -/
def pyRound (q : ℚ) : ℤ :=
  let f := ratFloor q
  let rnum2 := 2 * (q.num - f * (q.den : ℤ))
  if rnum2 < (q.den : ℤ) then f
  else if (q.den : ℤ) < rnum2 then f + 1
  else if f % 2 = 0 then f else f + 1

/-- Python `int(x)` on a number: truncation toward zero. -/
def pyInt (q : ℚ) : ℤ := q.num.tdiv (q.den : ℤ)

/-- Decimal digit character. -/
def digitChar (n : ℕ) : Char := Char.ofNat (48 + n)

/-- Fuel-driven most-significant-first decimal digits of `n`. -/
def natDigitsAux : ℕ → ℕ → List Char
  | 0, _ => []
  | _ + 1, 0 => []
  | fuel + 1, n => natDigitsAux fuel (n / 10) ++ [digitChar (n % 10)]

/-- Python `str` of a non-negative integer. -/
def natToStr (n : ℕ) : String :=
  if n = 0 then "0" else (natDigitsAux (n + 1) n).asString

/-- Python `str` of an integer. -/
def intToStr (i : ℤ) : String :=
  if i < 0 then "-" ++ natToStr i.natAbs else natToStr i.natAbs

/-- One row of the exported table (src/app.py lines 201-205 / 208-212). -/
structure ExportRow where
  seconds : String
  speaker : String
  text : String
deriving DecidableEq

/-- src/app.py lines 193-205: the row built for segment `seg` at index
`i`: `str(round(segment.get("start", 0)))`, the backend speaker tag
converted 0-based to 1-based when present, the cyclic index-modulo-5
label otherwise, and the trimmed `segment.get("text", "")`. -/
def mkRow (i : ℕ) (seg : SegDict) : ExportRow :=
  ⟨intToStr (pyRound (seg.start.getD 0)),
   match seg.speaker with
   | some t => "Speaker " ++ intToStr (pyInt t + 1)
   | none => "Speaker " ++ natToStr (i % 5 + 1),
   strTrim (seg.text.getD "")⟩

/-- src/app.py line 193: `for i, segment in enumerate(segments)`. -/
def buildRowsAux (i : ℕ) : List SegDict → List ExportRow
  | [] => []
  | seg :: rest => mkRow i seg :: buildRowsAux (i + 1) rest

/-- The `transcription_data` argument of `save_to_csv`:
`segments?` is `some` exactly when the "segments" key is present
(line 191 tests key presence, not emptiness), `text?` when the "text"
key is present (line 211 defaults it to `""`). -/
structure CsvInput where
  segments? : Option (List SegDict)
  text? : Option String

/-- src/app.py lines 188-212: the in-memory row table; with no
"segments" key, the single fallback row of lines 208-212 (whose text is
not trimmed). -/
def buildRows (d : CsvInput) : List ExportRow :=
  match d.segments? with
  | some segs => buildRowsAux 0 segs
  | none => [⟨"0", "Speaker 1", d.text?.getD ""⟩]

/-- The column names of the rows written at lines 201-212. -/
def csvHeader : List String :=
  ["Seconds in video", "Speaker Name/Number", "Transcribed text"]

/-- The observable effects of `save_to_csv` (src/app.py lines 178-221):
the written path (`Output/<filename>`, lines 182-185), the row table, the
header `pandas.DataFrame(rows).to_csv` writes (the row-dict keys in
insertion order; an empty row list yields an empty, header-less file),
the `encoding="utf-8-sig"` argument (line 216), and the
`mkdir(exist_ok=True)` of line 183. -/
structure SaveResult where
  path : String
  rows : List ExportRow
  header : List String
  encoding : String
  createsOutputDir : Bool
deriving DecidableEq

/-- src/app.py lines 178-221: `save_to_csv`. -/
def save_to_csv (d : CsvInput) (filename : String) : SaveResult :=
  ⟨"Output/" ++ filename, buildRows d,
   if buildRows d = [] then [] else csvHeader,
   "utf-8-sig", true⟩

/-- src/app.py lines 269-283: the pipeline tail — run `transcribe_audio`
and, only on a truthy result, export it (`transcription_result` always
carries both the "text" and "segments" keys). -/
def pipelineExport (parse : String → Option Json) (clientExists : Bool)
    (proc : ProcOutcome) (fn : String) : Option SaveResult :=
  match transcribe_audio parse clientExists proc with
  | Except.error _ => none
  | Except.ok r => some (save_to_csv ⟨some r.segments, some r.text⟩ fn)

/-- Filesystem effects of the pipeline tail in `main`. -/
inductive Effect where
  | unlinkWaveform : Effect
  | writeCsv (path : String) : Effect
deriving DecidableEq

/-- src/app.py lines 269-283 as an effect trace: after `transcribe_audio`
returns, the temporary waveform is unlinked unconditionally
(lines 272-276, on success, error and timeout alike), and the CSV write
happens only for a truthy transcription result. -/
def mainEffects (parse : String → Option Json) (clientExists : Bool)
    (proc : ProcOutcome) (fn : String) : List Effect :=
  Effect.unlinkWaveform ::
    (match transcribe_audio parse clientExists proc with
     | Except.error _ => []
     | Except.ok r =>
       [Effect.writeCsv ((save_to_csv ⟨some r.segments, some r.text⟩ fn).path)])

/-- Which temporary files of `extract_audio_from_mp4` are on disk when it
returns. -/
structure FsState where
  tempAudio : Bool
  tempVideo : Bool
deriving DecidableEq

/-- src/app.py lines 24-55: `extract_audio_from_mp4`.  The temporary audio
file (line 28) and the temporary video copy (lines 33-35) are both created
before the extraction step; `extractOk` is whether the moviepy extraction
(lines 38-47) succeeds.  On success the video copy is unlinked (line 50)
and the audio path returned; on any exception the handler (lines 53-55)
returns `None` without unlinking either file. -/
def extract_audio_from_mp4 (extractOk : Bool) : Option String × FsState :=
  if extractOk then (some "tmp_audio.wav", ⟨true, false⟩)
  else (none, ⟨true, true⟩)

/-- The `audioProcessed` value (default `0.0`) that `procItem` turns into
a segment start, or `none` when the item contributes no segment. -/
def itemAp (item : Json) : Option ℚ :=
  match procItem item with
  | Except.ok (some tas) => some tas.2.1
  | _ => none

/-- The list iterated at src/app.py line 121. -/
def resultsItems (data : Json) : List Json :=
  match resultsField data with
  | some (Json.arr l) => l
  | _ => []

/-! ## Helper lemmas -/

theorem filterMap_start_of_map_some :
    ∀ (segs : List SegDict) (aps : List ℚ),
      segs.map SegDict.start = aps.map Option.some →
      segs.filterMap SegDict.start = aps := by
  intro segs
  induction segs with
  | nil =>
    intro aps h
    cases aps with
    | nil => simp
    | cons a l => simp at h
  | cons s rest ih =>
    intro aps h
    cases aps with
    | nil => simp at h
    | cons a l =>
      simp only [List.map_cons, List.cons.injEq] at h
      simp [List.filterMap_cons, h.1, ih l h.2]

/-- The normalizer emits, in order, exactly one segment per contributing
result item, carrying that item's `audioProcessed` value as its start. -/
theorem procResults_starts :
    ∀ (items : List Json) (p : String × List SegDict),
      procResults items = Except.ok p →
      p.2.map SegDict.start = ((items.filterMap itemAp).map Option.some) := by
  intro items
  induction items with
  | nil =>
    intro p h
    simp only [procResults] at h
    injection h with h1
    simp [← h1]
  | cons item rest ih =>
    intro p h
    simp only [procResults] at h
    split at h
    · exact absurd h (by simp)
    · next heq =>
      have := ih p h
      simp [List.filterMap_cons, itemAp, heq, this]
    · next tr ap sp heq =>
      split at h
      · exact absurd h (by simp)
      · next ts2 heq2 =>
        injection h with h1
        have := ih ts2 heq2
        simp [List.filterMap_cons, itemAp, heq, ← h1, this]

/-- In `transcribe_audio`, the accumulated text is empty whenever the
accumulated segment list is empty (each is extended exactly when the
other is, lines 141-146): the guard of the line 150-161 fallback can
therefore never hold. -/
theorem procResults_text_of_nil :
    ∀ (items : List Json) (p : String × List SegDict),
      procResults items = Except.ok p → p.2 = [] → p.1 = "" := by
  intro items
  induction items with
  | nil =>
    intro p h _
    simp only [procResults] at h
    injection h with h1
    simp [← h1]
  | cons item rest ih =>
    intro p h hnil
    simp only [procResults] at h
    split at h
    · exact absurd h (by simp)
    · exact ih p h hnil
    · next tr ap sp heq =>
      split at h
      · exact absurd h (by simp)
      · next ts2 heq2 =>
        injection h with h1
        rw [← h1] at hnil
        simp at hnil

/-- Every payload the normalizer accepts carries at least one segment. -/
theorem processJson_ok_segments_ne_nil (data : Json) (out : String) (r : ResultData)
    (h : processJson data out = Except.ok r) : r.segments ≠ [] := by
  unfold processJson at h
  split at h
  · split at h
    · exact absurd h (by simp)
    · next ts heq =>
      unfold finishResult at h
      split at h
      · next hg =>
        split at h
        · split at h
          · exact absurd h (by simp)
          · injection h with h1
            rw [← h1]
            simp
        · have hnil := procResults_text_of_nil _ ts heq hg.1
          have hx : strTrim ts.1 = "" := by rw [hnil]; rfl
          exact absurd hx hg.2
      · next hg =>
        split at h
        · exact absurd h (by simp)
        · next hne =>
          injection h with h1
          rw [← h1]
          push_neg at hg
          intro hcon
          simp only at hcon
          exact hne (hg hcon)
  · exact absurd h (by simp)
  · have hval : finishResult "" [] out = Except.error TErr.emptyResult := rfl
    rw [hval] at h
    exact absurd h (by simp)

theorem buildRowsAux_length (segs : List SegDict) :
    ∀ (k : ℕ), (buildRowsAux k segs).length = segs.length := by
  induction segs with
  | nil => intro k; simp [buildRowsAux]
  | cons s rest ih => intro k; simp [buildRowsAux, ih (k + 1)]

theorem buildRowsAux_getElem (segs : List SegDict) :
    ∀ (k i : ℕ),
      (buildRowsAux k segs)[i]? = (segs[i]?).map (fun s => mkRow (k + i) s) := by
  induction segs with
  | nil => intro k i; simp [buildRowsAux]
  | cons s rest ih =>
    intro k i
    cases i with
    | zero => simp [buildRowsAux]
    | succ n =>
      simp only [buildRowsAux, List.getElem?_cons_succ, ih (k + 1) n]
      have : k + 1 + n = k + (n + 1) := by omega
      rw [this]

/-! ## Concrete payloads used by the claims -/

/-- The process-backend payload of Scenario B (claim C1):
`results:[\x7balternatives:[\x7btranscript:"hello world",
words:[\x7bspeakerTag:1\x7d]\x7d], audioProcessed:2.6\x7d]`. -/
def data1 : Json := Json.obj [("results", Json.arr [Json.obj [
  ("alternatives", Json.arr [Json.obj [
     ("transcript", Json.str "hello world"),
     ("words", Json.arr [Json.obj [("speakerTag", Json.num 1)]])]]),
  ("audioProcessed", Json.num (Rat.divInt 13 5))]])]

/-- The HTTP-style segment dictionaries of Scenario A (claim C2): starts
`0.0` and `1.2`, texts `hi` and `there`, no speaker keys. -/
def httpSegments : List SegDict :=
  [⟨some 0, some "hi", none⟩, ⟨some (Rat.divInt 6 5), some "there", none⟩]

/-- The Scenario C payload (claim C3): only a top-level text field. -/
def textOnlyPayload : Json := Json.obj [("text", Json.str "fallback")]

/-- Process stdout whose JSON region parses but holds no results, with a
`Final transcript:` marker line after it (claim C4). -/
def out4 : String := "\x7b\"foo\": 1\x7d\nFinal transcript: hello"

/-- A payload whose two results report decreasing `audioProcessed` values
(5 then 2), used against claim C5. -/
def data5 : Json := Json.obj [("results", Json.arr [
  Json.obj [("alternatives", Json.arr [Json.obj [("transcript", Json.str "a")]]),
            ("audioProcessed", Json.num 5)],
  Json.obj [("alternatives", Json.arr [Json.obj [("transcript", Json.str "b")]]),
            ("audioProcessed", Json.num 2)]])]

/-- A payload whose two results report increasing `audioProcessed` values
(1 then 2), the witness input for the amended claim C5. -/
def dataM : Json := Json.obj [("results", Json.arr [
  Json.obj [("alternatives", Json.arr [Json.obj [("transcript", Json.str "a")]]),
            ("audioProcessed", Json.num 1)],
  Json.obj [("alternatives", Json.arr [Json.obj [("transcript", Json.str "b")]]),
            ("audioProcessed", Json.num 2)]])]

/-- The normalized form of `dataM`. -/
def rM : ResultData := ⟨"a b", [⟨some 1, some "a", none⟩, ⟨some 2, some "b", none⟩]⟩

/-- A minimal one-result payload, the witness input for claim C6. -/
def dataC6 : Json := Json.obj [("results", Json.arr [Json.obj [
  ("alternatives", Json.arr [Json.obj [("transcript", Json.str "x")]]),
  ("audioProcessed", Json.num 1)]])]

/-- The normalized form of `dataC6`. -/
def rC6 : ResultData := ⟨"x", [⟨some 1, some "x", none⟩]⟩

/-! ## Claim theorems -/

/-- C1: for the process-backend payload
`results:[\x7balternatives:[\x7btranscript:"hello world",
words:[\x7bspeakerTag:1\x7d]\x7d], audioProcessed:2.6\x7d]`, the pipeline
(normalizer followed by exporter) produces exactly one export row
`("3", "Speaker 2", "hello world")`: the start is `audioProcessed`
rounded to the nearest whole second, the speaker label is the 0-based tag
of the first word converted to 1-based, and the text is the trimmed
transcript of the first alternative. -/
theorem c1_process_payload_single_row :
    pipelineExport (fun _ => some data1) true
      (ProcOutcome.completed 0 "\x7bj\x7d" "") "v.csv"
      = some ⟨"Output/v.csv", [⟨"3", "Speaker 2", "hello world"⟩], csvHeader,
              "utf-8-sig", true⟩ := by decide

/-- C2 counterexample: exporting the Scenario A segments does not yield
the rows `("0.00", "Speaker 1", "hi")`, `("1.20", "Speaker 2", "there")`
claimed by the spec — `save_to_csv` formats every timestamp with
`str(round(...))`, so no two-decimal string is ever produced. -/
theorem c2_two_decimal_counterexample :
    buildRows ⟨some httpSegments, some "hi there"⟩
      ≠ [⟨"0.00", "Speaker 1", "hi"⟩, ⟨"1.20", "Speaker 2", "there"⟩] := by decide

/-- C2 amended: exporting the payload
`\x7btext:"hi there", segments:[\x7bstart:0.0, text:"hi"\x7d,
\x7bstart:1.2, text:"there"\x7d]\x7d` yields exactly the two rows
`("0", "Speaker 1", "hi")` and `("1", "Speaker 2", "there")`: the
exporter rounds every timestamp to the nearest whole second regardless of
which backend produced it, and assigns speaker labels by the cyclic
index-modulo-5 fallback because the segments carry no speaker tag. -/
theorem c2_http_rows_whole_second :
    buildRows ⟨some httpSegments, some "hi there"⟩
      = [⟨"0", "Speaker 1", "hi"⟩, ⟨"1", "Speaker 2", "there"⟩] := by decide

/-- C3 counterexample: for the payload holding only `text:"fallback"` and
no segments, the pipeline produces no export at all — normalization never
reads the top-level text field, finds no results, and returns failure
(`None`), instead of synthesizing a zero-timestamp segment. -/
theorem c3_text_fallback_counterexample :
    pipelineExport (fun _ => some textOnlyPayload) true
      (ProcOutcome.completed 0 "\x7bt\x7d" "") "f.csv" = none := by rfl

/-- C3 amended: normalization fails (yields no payload, hence the
pipeline writes no file) on a payload whose structured extraction yields
zero segments, even when a full-text string is present; only the exporter,
when given a dictionary lacking a segments list but holding
`text:"fallback"`, produces the single row
`("0", "Speaker 1", "fallback")`. -/
theorem c3_text_fallback_amended :
    processJson textOnlyPayload "\x7bt\x7d" = Except.error TErr.emptyResult ∧
    buildRows ⟨none, some "fallback"⟩ = [⟨"0", "Speaker 1", "fallback"⟩] :=
  ⟨by rfl, by decide⟩

/-- C4: the code contradicts the claim (and its own comment at line 150).
For a process stdout whose JSON parses but holds no usable results and
which does contain a `Final transcript:` marker line, the fallback guard
`if not result_data["segments"] and result_data["text"]` can never hold
(the text accumulator is non-empty only when a segment was appended), so
`transcribe_audio` returns `None` instead of the claimed single
zero-timestamp segment holding the final transcript. -/
theorem c4_marker_fallback_never_fires :
    markerTail (strTrim out4) = some "hello" ∧
    transcribeStdout (fun _ => some (Json.obj [("foo", Json.num 1)])) out4
      = Except.error TErr.emptyResult ∧
    pipelineExport (fun _ => some (Json.obj [("foo", Json.num 1)])) true
      (ProcOutcome.completed 0 out4 "") "f.csv" = none :=
  ⟨by rfl, by rfl, by rfl⟩

/-- C5 counterexample: a backend payload whose results carry decreasing
`audioProcessed` values (5 then 2) normalizes to a transcript whose
segment start times are 5, 2 — not monotonically non-decreasing.  The
claim is false as stated over all normalizer outputs. -/
theorem c5_nonmonotone_counterexample :
    (match processJson data5 "" with
     | Except.ok r => r.segments.filterMap SegDict.start
     | Except.error _ => []) = [(5 : ℚ), 2] ∧
    ¬ List.Chain' (fun a b => a ≤ b) [(5 : ℚ), 2] := by
  refine ⟨rfl, ?_⟩
  simp [List.chain'_cons, List.chain'_singleton]
  norm_num

/-- C5 amended: the normalizer maps the backend results to segments in
order without reordering, so whenever the `audioProcessed` values of the
contributing results are non-decreasing (the backend emits in
chronological order), the start times of the normalized segment sequence
are monotonically non-decreasing. -/
theorem c5_starts_monotone_of_backend_monotone (data : Json) (out : String)
    (r : ResultData) (h : processJson data out = Except.ok r)
    (hm : List.Chain' (fun a b => a ≤ b) ((resultsItems data).filterMap itemAp)) :
    List.Chain' (fun a b => a ≤ b) (r.segments.filterMap SegDict.start) := by
  unfold processJson at h
  split at h
  · next items heqrf =>
    split at h
    · exact absurd h (by simp)
    · next ts heq =>
      unfold finishResult at h
      split at h
      · next hg =>
        split at h
        · split at h
          · exact absurd h (by simp)
          · injection h with h1
            rw [← h1]
            simp
        · split at h
          · exact absurd h (by simp)
          · injection h with h1
            rw [← h1]
            simp [hg.1]
      · next hg =>
        split at h
        · exact absurd h (by simp)
        · injection h with h1
          rw [← h1]
          have hs := procResults_starts _ ts heq
          have hfm := filterMap_start_of_map_some ts.2 _ hs
          simp only
          rw [hfm]
          have hri : resultsItems data = items := by
            simp only [resultsItems]
            rw [heqrf]
          rwa [hri] at hm
  · exact absurd h (by simp)
  · have hval : finishResult "" [] out = Except.error TErr.emptyResult := rfl
    rw [hval] at h
    exact absurd h (by simp)

/-- Witness for the amended C5 at the concrete payload `dataM`. -/
theorem c5_starts_monotone_witness :
    processJson dataM "" = Except.ok rM ∧
    List.Chain' (fun a b => a ≤ b) ((resultsItems dataM).filterMap itemAp) ∧
    List.Chain' (fun a b => a ≤ b) (rM.segments.filterMap SegDict.start) := by
  have h1 : processJson dataM "" = Except.ok rM := rfl
  have h2 : List.Chain' (fun a b => a ≤ b) ((resultsItems dataM).filterMap itemAp) := by
    have hv : (resultsItems dataM).filterMap itemAp = [(1 : ℚ), 2] := rfl
    rw [hv]
    simp [List.chain'_cons, List.chain'_singleton]
  exact ⟨h1, h2, c5_starts_monotone_of_backend_monotone dataM "" rM h1 h2⟩

/-- C6: for every Transcript produced by normalization and every
destination name, the exporter writes to `Output/<name>` a table whose
header columns are exactly `Seconds in video`, `Speaker Name/Number`,
`Transcribed text`, with one row per segment in segment order built by
the row rule `mkRow` (which applies the cyclic index-modulo-5
SpeakerAssignment when the segment has no backend speaker tag), creates
the missing destination directory, uses byte-order-mark-prefixed UTF-8
(`utf-8-sig`), and returns both the written path and the in-memory row
table. -/
theorem c6_exporter_contract (data : Json) (out : String) (r : ResultData) (fn : String)
    (h : processJson data out = Except.ok r) :
    (save_to_csv ⟨some r.segments, some r.text⟩ fn).path = "Output/" ++ fn ∧
    (save_to_csv ⟨some r.segments, some r.text⟩ fn).header = csvHeader ∧
    (save_to_csv ⟨some r.segments, some r.text⟩ fn).encoding = "utf-8-sig" ∧
    (save_to_csv ⟨some r.segments, some r.text⟩ fn).createsOutputDir = true ∧
    (save_to_csv ⟨some r.segments, some r.text⟩ fn).rows.length = r.segments.length ∧
    (∀ (i : ℕ) (seg : SegDict), r.segments[i]? = some seg →
      (save_to_csv ⟨some r.segments, some r.text⟩ fn).rows[i]? = some (mkRow i seg)) ∧
    (∀ (i : ℕ) (seg : SegDict), r.segments[i]? = some seg → seg.speaker = none →
      (mkRow i seg).speaker = "Speaker " ++ natToStr (i % 5 + 1)) := by
  have hrows : (save_to_csv ⟨some r.segments, some r.text⟩ fn).rows
      = buildRowsAux 0 r.segments := rfl
  have hne : r.segments ≠ [] := processJson_ok_segments_ne_nil data out r h
  have hlen : (buildRowsAux 0 r.segments).length = r.segments.length :=
    buildRowsAux_length r.segments 0
  refine ⟨rfl, ?_, rfl, rfl, ?_, ?_, ?_⟩
  · show (if buildRows ⟨some r.segments, some r.text⟩ = [] then [] else csvHeader)
        = csvHeader
    rw [if_neg]
    intro hcon
    apply hne
    have hl : (buildRows ⟨some r.segments, some r.text⟩).length = r.segments.length :=
      hlen
    rw [hcon] at hl
    exact List.length_eq_zero.mp hl.symm
  · exact hlen
  · intro i seg hseg
    rw [hrows, buildRowsAux_getElem r.segments 0 i, hseg]
    simp
  · intro i seg _ hsp
    simp [mkRow, hsp]

/-- Witness for C6 at the concrete normalized payload `dataC6`. -/
theorem c6_exporter_contract_witness :
    (save_to_csv ⟨some rC6.segments, some rC6.text⟩ "a.csv").header = csvHeader ∧
    (save_to_csv ⟨some rC6.segments, some rC6.text⟩ "a.csv").encoding = "utf-8-sig" ∧
    (save_to_csv ⟨some rC6.segments, some rC6.text⟩ "a.csv").rows.length
      = rC6.segments.length :=
  ⟨(c6_exporter_contract dataC6 "" rC6 "a.csv" rfl).2.1,
   (c6_exporter_contract dataC6 "" rC6 "a.csv" rfl).2.2.1,
   (c6_exporter_contract dataC6 "" rC6 "a.csv" rfl).2.2.2.2.1⟩

/-- C7: for every non-empty stripped process stdout, the payload is
located as the substring from the first `\x7b` to the last `\x7d`
(`jsonRegion`); if no such region exists, `transcribe_audio` reports the
could-not-parse error and the pipeline writes no file, and if the region
exists but fails to parse as JSON, it reports the JSON-decode error and
the pipeline writes no file either. -/
theorem c7_parse_failure_no_file (parse : String → Option Json) (stdout fn : String)
    (hne : strTrim stdout ≠ "") :
    (jsonRegion (strTrim stdout) = none →
      transcribe_audio parse true (ProcOutcome.completed 0 stdout "")
          = Except.error TErr.noJsonRegion ∧
      pipelineExport parse true (ProcOutcome.completed 0 stdout "") fn = none) ∧
    (∀ js, jsonRegion (strTrim stdout) = some js → parse js = none →
      transcribe_audio parse true (ProcOutcome.completed 0 stdout "")
          = Except.error TErr.jsonDecode ∧
      pipelineExport parse true (ProcOutcome.completed 0 stdout "") fn = none) := by
  have hta : transcribe_audio parse true (ProcOutcome.completed 0 stdout "")
      = transcribeStdout parse stdout := rfl
  constructor
  · intro hnone
    have hval : transcribeStdout parse stdout = Except.error TErr.noJsonRegion := by
      unfold transcribeStdout
      rw [if_neg hne, hnone]
    refine ⟨hta.trans hval, ?_⟩
    unfold pipelineExport
    rw [hta, hval]
  · intro js hjs hparse
    have hval : transcribeStdout parse stdout = Except.error TErr.jsonDecode := by
      unfold transcribeStdout
      rw [if_neg hne, hjs]
      simp only [hparse]
    refine ⟨hta.trans hval, ?_⟩
    unfold pipelineExport
    rw [hta, hval]

/-- Witness for C7: Scenario D, a stdout with no JSON and no marker. -/
theorem c7_parse_failure_no_file_witness :
    strTrim "no json here" ≠ "" ∧
    transcribe_audio (fun _ => none) true (ProcOutcome.completed 0 "no json here" "")
        = Except.error TErr.noJsonRegion ∧
    pipelineExport (fun _ => none) true (ProcOutcome.completed 0 "no json here" "")
        "f.csv" = none := by
  have hne : strTrim "no json here" ≠ "" := by decide
  have hmain := (c7_parse_failure_no_file (fun _ => none) "no json here" "f.csv" hne).1 rfl
  exact ⟨hne, hmain.1, hmain.2⟩

/-- C8: when the backend call times out, `transcribe_audio` reports the
timeout error — a distinct outcome from the non-zero-exit-code error —
and the effect trace of `main` still contains the unconditional waveform
unlink (and nothing else: no file is written). -/
theorem c8_timeout_error_and_cleanup (parse : String → Option Json) (fn : String) :
    transcribe_audio parse true ProcOutcome.timeout = Except.error TErr.timeout ∧
    (∀ s, TErr.timeout ≠ TErr.processFailed s) ∧
    mainEffects parse true ProcOutcome.timeout fn = [Effect.unlinkWaveform] := by
  refine ⟨rfl, ?_, rfl⟩
  intro s hcon
  cases hcon

/-- C9: the code contradicts the claim.  On an extraction failure,
`extract_audio_from_mp4` returns `None`, but the exception handler
(lines 53-55) performs no cleanup: both the temporary audio file created
at line 28 and the temporary video copy created at lines 33-35 remain on
disk, where the claim requires both to be removed. -/
theorem c9_extraction_failure_leaks_temp_files :
    (extract_audio_from_mp4 false).1 = none ∧
    (extract_audio_from_mp4 false).2.tempAudio = true ∧
    (extract_audio_from_mp4 false).2.tempVideo = true :=
  ⟨rfl, rfl, rfl⟩

/-- C10: the exporter is total over partially-formed segment
dictionaries: at any position, a segment with no start key produces the
seconds string `"0"`, one with no text key produces an empty text cell,
and one with no (or null) speaker key gets the cyclic index-modulo-5
fallback label — the exporter never fails for lack of one of these
fields. -/
theorem c10_exporter_total_on_missing_fields
    (pre post : List SegDict) (st : Option ℚ) (tx : Option String) (sp : Option ℚ)
    (t : Option String) :
    (buildRows ⟨some (pre ++ (⟨none, tx, sp⟩ : SegDict) :: post), t⟩)[pre.length]?
        = some (mkRow pre.length ⟨none, tx, sp⟩) ∧
    (mkRow pre.length ⟨none, tx, sp⟩).seconds = "0" ∧
    (mkRow pre.length ⟨st, none, sp⟩).text = "" ∧
    (mkRow pre.length ⟨st, tx, none⟩).speaker
        = "Speaker " ++ natToStr (pre.length % 5 + 1) := by
  refine ⟨?_, rfl, rfl, rfl⟩
  have hb : buildRows ⟨some (pre ++ (⟨none, tx, sp⟩ : SegDict) :: post), t⟩
      = buildRowsAux 0 (pre ++ (⟨none, tx, sp⟩ : SegDict) :: post) := rfl
  rw [hb, buildRowsAux_getElem]
  rw [List.getElem?_append_right (Nat.le_refl pre.length)]
  simp
